import Mathlib

/-!
Shallow embedding of the proxy-edith request gateway (TypeScript, Next.js edge
handlers) and verification of its specification claims.

Conventions of the embedding:
* JavaScript strings are Lean `String`; the JS helpers `String.prototype.split`,
  `String.prototype.includes` and `String.prototype.replace` (string pattern,
  first occurrence) are modelled by executable functions on `List Char`.
* The Fetch-API `Headers` object is modelled as an association list with
  lowercase keys (`Headers` normalises names to lowercase, so the source's
  `set('Authorization', ...)` and `delete('connection')` address one
  case-insensitive name space; the embedding writes every name lowercase).
* `Map<string, number>` rate-limit state is an association list `String × Int`;
  timestamps (`Date.now()`) are `Int` milliseconds passed in explicitly.
* `fetch` and the Supabase audit sink are oracles passed as parameters; a
  thrown JS exception is `Except.error ()`.
-/

namespace ProxyEdith

/-- The suffix that follows the first occurrence of `sep` in the list
(`none` when `sep` does not occur; the left-to-right scan matches JS's
`indexOf`-based search). -/
def firstOcc (sep : List Char) : List Char → Option (List Char)
  | [] => if sep.isEmpty then some [] else none
  | c :: cs =>
    if sep.isPrefixOf (c :: cs) then some ((c :: cs).drop sep.length)
    else firstOcc sep cs

/-- The segment before the first occurrence of `sep` (the whole list when
`sep` does not occur). -/
def takeUntilOcc (sep : List Char) : List Char → List Char
  | [] => []
  | c :: cs =>
    if sep.isPrefixOf (c :: cs) then []
    else c :: takeUntilOcc sep cs

/-- JS `s.split(sep)[1]` for a non-empty string separator: the segment
strictly between the first occurrence of `sep` and the next occurrence
(or the end of the string); `none` models the `undefined` JS yields when
`sep` does not occur (the split array then has a single element). -/
def jsSplitGet1 (s sep : String) : Option String :=
  (firstOcc sep.data s.data).map (fun rest => ⟨takeUntilOcc sep.data rest⟩)

/-- `haystack.includes(needle)` on character lists. -/
def listIncludesL (sub : List Char) : List Char → Bool
  | [] => sub.isEmpty
  | c :: cs => sub.isPrefixOf (c :: cs) || listIncludesL sub cs

/-- JS `s.includes(sub)`. -/
def jsIncludes (s sub : String) : Bool :=
  listIncludesL sub.data s.data

/-- JS `s.replace(pat, rep)` with a string pattern replaces only the first
occurrence; character-list version for a non-empty pattern `d :: ds`. -/
def listReplaceFirst (d : Char) (ds rep : List Char) : List Char → List Char
  | [] => []
  | c :: cs =>
    if (d :: ds).isPrefixOf (c :: cs) then
      rep ++ cs.drop ds.length
    else
      c :: listReplaceFirst d ds rep cs

/-- JS `s.replace(pat, rep)` for strings (first occurrence only). -/
def jsReplaceFirst (s pat rep : String) : String :=
  match pat.data with
  | [] => s
  | d :: ds => ⟨listReplaceFirst d ds rep.data s.data⟩

/-- JS falsiness of a possibly-absent string: `undefined`, `null` and the
empty string are falsy. -/
def jsFalsy : Option String → Bool
  | none => true
  | some s => s == ""

/-- JS `a || b` where `a` is a possibly-absent string and `b` a string. -/
def jsOrStr (a : Option String) (b : String) : String :=
  match a with
  | some s => if s == "" then b else s
  | none => b

/-- JS `a || b` where both operands are possibly-absent strings. -/
def jsOrOpt (a b : Option String) : Option String :=
  match a with
  | some s => if s == "" then b else some s
  | none => b

/-- JS template-literal interpolation of a possibly-undefined string:
`undefined` prints as the text `undefined`. -/
def jsToStr : Option String → String
  | some s => s
  | none => "undefined"

/-! ### Fetch-API `Headers` (lowercase-normalised association list) -/

abbrev Headers := List (String × String)

/-- `headers.get(k)` (keys pre-normalised to lowercase). -/
def hGet (h : Headers) (k : String) : Option String :=
  (h.find? (fun p => p.1 == k)).map (·.2)

/-- `headers.set(k, v)`. -/
def hSet (h : Headers) (k v : String) : Headers :=
  (k, v) :: h.filter (fun p => !(p.1 == k))

/-- `headers.delete(k)`. -/
def hDelete (h : Headers) (k : String) : Headers :=
  h.filter (fun p => !(p.1 == k))

/-- `src.forEach((v, k) => dst.set(k, v))` — merge `src` into `dst`,
overwriting. -/
def hMergeSet (dst src : Headers) : Headers :=
  src.foldl (fun d p => hSet d p.1 p.2) dst

/-! ### Rate-limit state: `Map<string, number>` keyed by client IP -/

abbrev RateMap := List (String × Int)

/-- `map.get(ip)` (JS `Map.get`, `undefined` as `none`). -/
def mapGet (m : RateMap) (k : String) : Option Int :=
  (m.find? (fun p => p.1 == k)).map (·.2)

/-- `map.set(ip, v)`. -/
def mapSet (m : RateMap) (k : String) (v : Int) : RateMap :=
  (k, v) :: m.filter (fun p => !(p.1 == k))

/-! ### Shared response/upstream shapes -/

/-- A web-platform `Response`: status, headers, body (`none` is the `null`
body of a `204`). -/
structure Response where
  status : Nat
  headers : Headers
  body : Option String
deriving DecidableEq

/-- The value a successful `fetch` resolves to, as far as the handlers
inspect it. -/
structure Upstream where
  status : Nat
  headers : Headers
  body : Option String
deriving DecidableEq

def internalServerErrorBody : String := "\x7b\"error\":\"Internal Server Error\"\x7d"

/-! ## The mistral handler (`src/openai-proxy/src/pages/api/mistral/[...path].ts`) -/

namespace Mistral

def MISTRAL_BASE_URL : String := "https://api.mistral.ai/v1"

def RATE_LIMIT_DURATION : Int := 1000

/-- `waitForCooldown(ip)`, made pure by passing the two `Date.now()` reads
explicitly: `now` is the read taken on entry (used to compute the elapsed
time and the wait), `exitNow` the read taken after the optional
`setTimeout` suspension, just before the map is stamped.  Returns the
number of milliseconds the request was suspended for together with the
updated map. -/
def waitForCooldown (m : RateMap) (ip : String) (now exitNow : Int) :
    Int × RateMap :=
  let lastRequestTime := (mapGet m ip).getD 0
  let timeElapsed := now - lastRequestTime
  let waited := if timeElapsed < RATE_LIMIT_DURATION then
    RATE_LIMIT_DURATION - timeElapsed else 0
  (waited, mapSet m ip exitNow)

/-- The value of the `Access-Control-Allow-Headers` list built in
`getCorsHeaders`. -/
def allowHeadersValue : String :=
  "Authorization, Content-Type, OpenAI-Beta, OpenAI-Organization, User-Agent, Accept, Origin, Referer, Client-Sdk, X-Requested-With, x-stainless-arch, x-stainless-lang"

/-- `getCorsHeaders(origin)`: three fixed CORS headers plus
`Access-Control-Allow-Origin` reflecting the request origin when truthy and
`*` otherwise. -/
def getCorsHeaders (origin : Option String) : Headers :=
  let headers : Headers :=
    [("access-control-allow-credentials", "true"),
     ("access-control-allow-methods", "GET, POST, PUT, DELETE, OPTIONS"),
     ("access-control-allow-headers", allowHeadersValue)]
  if jsFalsy origin = false then
    hSet headers "access-control-allow-origin" (origin.getD "")
  else
    hSet headers "access-control-allow-origin" "*"

/-- `headers.get('authorization')?.split('Bearer ')[1] || process.env.MISTRAL_API_KEY`. -/
def resolveApiKey (authHeader envKey : Option String) : Option String :=
  jsOrOpt (authHeader.bind (fun v => jsSplitGet1 v "Bearer ")) envKey

/-- The target URL built from `url.pathname` only — the query string
(`url.search`) does not participate. -/
def mistralTargetUrl (pathname : String) : String :=
  MISTRAL_BASE_URL ++ "/" ++ jsToStr (jsSplitGet1 pathname "/api/mistral/")

structure Request where
  method : String
  urlPathname : String
  urlSearch : String
  headers : Headers
  body : String
deriving DecidableEq

structure ForwardSpec where
  method : String
  targetUrl : String
  headers : Headers
  body : String
deriving DecidableEq

structure HandlerOut where
  resp : Response
  fwd : Option ForwardSpec
  rate : RateMap
deriving DecidableEq

def apiKeyRequiredBody : String := "\x7b\"error\":\"API key is required\"\x7d"

/-- The relayed response headers: clone of the upstream headers, CORS headers
merged in via `forEach`/`set`, then the hop-by-hop deletions. -/
def relayHeaders (upstreamHeaders corsHeaders : Headers) : Headers :=
  hDelete (hDelete (hMergeSet upstreamHeaders corsHeaders) "transfer-encoding")
    "connection"

/-- The upstream request headers built by the handler from the inbound
headers: overwrite `Authorization`, `Host`, `Content-Type`, then delete the
hop-by-hop `connection` and `transfer-encoding`. -/
def upstreamReqHeaders (inbound : Headers) (apiKey : String) : Headers :=
  hDelete (hDelete (hSet (hSet (hSet inbound "authorization"
    ("Bearer " ++ apiKey)) "host" "api.mistral.ai") "content-type"
    "application/json") "connection") "transfer-encoding"

/-- The default-export handler.  `env` is `process.env.MISTRAL_API_KEY`,
`fetchFn` the `fetch` oracle (`Except.error ()` models a thrown network
error), `rate`/`now`/`exitNow` thread the cooldown state and clock reads.
Besides the client response, the output records the dispatched
`ForwardSpec` (`none` when `fetch` was never called) and the rate map after
the request. -/
def handler (env : Option String) (fetchFn : ForwardSpec → Except Unit Upstream)
    (rate : RateMap) (now exitNow : Int) (req : Request) : HandlerOut :=
  let origin := hGet req.headers "origin"
  let corsHeaders := getCorsHeaders origin
  if req.method == "OPTIONS" then
    ⟨⟨204, corsHeaders, none⟩, none, rate⟩
  else
    let clientIP := jsOrStr (hGet req.headers "x-forwarded-for") "unknown-ip"
    let rate' := (waitForCooldown rate clientIP now exitNow).2
    let targetUrl := mistralTargetUrl req.urlPathname
    let apiKey := resolveApiKey (hGet req.headers "authorization") env
    if jsFalsy apiKey then
      ⟨⟨401, hSet corsHeaders "content-type" "application/json",
        some apiKeyRequiredBody⟩, none, rate'⟩
    else
      let fwd : ForwardSpec :=
        ⟨req.method, targetUrl, upstreamReqHeaders req.headers (apiKey.getD ""),
          req.body⟩
      match fetchFn fwd with
      | .error _ =>
        ⟨⟨500, hSet corsHeaders "content-type" "application/json",
          some internalServerErrorBody⟩, some fwd, rate'⟩
      | .ok response =>
        let responseHeaders := relayHeaders response.headers corsHeaders
        let isStreaming := match hGet response.headers "content-type" with
          | some ct => jsIncludes ct "stream"
          | none => false
        if isStreaming then
          match response.body with
          | none =>
            ⟨⟨500, hSet corsHeaders "content-type" "application/json",
              some internalServerErrorBody⟩, some fwd, rate'⟩
          | some b =>
            ⟨⟨response.status, responseHeaders, some b⟩, some fwd, rate'⟩
        else
          ⟨⟨response.status, responseHeaders, response.body⟩, some fwd, rate'⟩

end Mistral

/-! ## The `/api/proxy` handler (first handler of
`src/openai-proxy/src/pages/api/together/[...path].ts`) -/

namespace Proxy

/-- The `corsHeaders(req)` function of the proxy handler: it reads the
request origin but then returns a fixed object (the origin is unused). -/
def corsHeadersFn : Headers :=
  [("access-control-allow-origin", "*"),
   ("access-control-allow-methods", "GET, POST, PUT, DELETE, OPTIONS"),
   ("access-control-allow-headers", "Content-Type, Authorization, X-Requested-With"),
   ("access-control-allow-credentials", "true"),
   ("access-control-max-age", "86400")]

/-- `targetUrl = TARGET_BASE_URL + url.pathname.replace('/api/proxy', '') + url.search`. -/
def proxyTargetUrl (base pathname search : String) : String :=
  base ++ jsReplaceFirst pathname "/api/proxy" "" ++ search

/-- The upstream request headers of the proxy handler: clone of the inbound
headers with `Authorization` and `Host` overwritten — and nothing deleted
(no hop-by-hop stripping appears in this handler). -/
def proxyUpstreamHeaders (inbound : Headers) (apiKey : Option String)
    (host : String) : Headers :=
  hSet (hSet inbound "authorization" ("Bearer " ++ jsToStr apiKey)) "host" host

end Proxy

/-! ## The supabase-logging gateway handler (`src/unnamed/part_001`) -/

namespace Part001

def BANNED_IPS : List String := ["194.191.253.202"]

def isBannedIP (ip : String) : Bool :=
  BANNED_IPS.contains ip

/-- `const host = origin || referer` followed by
`!host?.includes('chat.gaurish.xyz') && !host?.includes('gaurish.xyz')`:
when both headers are absent (or empty), `host` is `undefined`, the
optional-chained calls yield `undefined`, and both negations are `true`,
so the origin check fails. -/
def originCheckFails (origin referer : Option String) : Bool :=
  match jsOrOpt origin referer with
  | none => true
  | some host =>
    if host == "" then true
    else !(jsIncludes host "chat.gaurish.xyz") && !(jsIncludes host "gaurish.xyz")

/-- `isRateLimited(ip)`: a denial (no delay) when the previous request from
`ip` was less than 1000 ms ago; the timestamp is recorded only on the
admitted path. -/
def isRateLimited (m : RateMap) (ip : String) (now : Int) : Bool × RateMap :=
  let lastRequest := (mapGet m ip).getD 0
  if now - lastRequest < 1000 then (true, m)
  else (false, mapSet m ip now)

/-- The status and error message a pre-dispatch denial hands to
`handleError`. -/
structure GateDenial where
  status : Nat
  message : String
deriving DecidableEq

/-- The admission gate of the handler, in source order: origin check, then
banned-IP check, then rate-limit check; `none` means the request proceeds
to dispatch.  The handler has no `OPTIONS` branch, so `method` is carried
but — exactly as in the source — never inspected. -/
def gate (method : String) (m : RateMap) (ip : String)
    (origin referer : Option String) (now : Int) :
    Option GateDenial × RateMap :=
  let _ := method
  if originCheckFails origin referer then
    (some ⟨403, "Unauthorized Origin"⟩, m)
  else if isBannedIP ip then
    (some ⟨403, "Your IP is banned from accessing this service"⟩, m)
  else
    match isRateLimited m ip now with
    | (true, m') => (some ⟨429, "Too Many Requests"⟩, m')
    | (false, m') => (none, m')

end Part001

/-! ## The abuse counter and audit logger (`src/unnamed/part_002`; the same
counter code appears in the `/api/proxy` handler) -/

namespace Part002

structure CountData where
  count : Int
  firstRequestTime : Int
deriving DecidableEq

abbrev CountMap := List (String × CountData)

def cmapGet (m : CountMap) (k : String) : Option CountData :=
  (m.find? (fun p => p.1 == k)).map (·.2)

def cmapSet (m : CountMap) (k : String) (v : CountData) : CountMap :=
  (k, v) :: m.filter (fun p => !(p.1 == k))

/-- The request-count tracking block (part_002 lines 174–189): read the
per-IP record (default `{count: 0, firstRequestTime: now}`), increment the
count, reset the window if more than five minutes old, fire
`notifyAdmin` whenever the resulting count exceeds 10, and store the
record.  Returns whether the notification fired together with the new
map.  No last-notification timestamp exists anywhere in the source. -/
def trackRequest (m : CountMap) (ip : String) (now : Int) : Bool × CountMap :=
  let requestCountData := (cmapGet m ip).getD ⟨0, now⟩
  let incremented : CountData :=
    ⟨requestCountData.count + 1, requestCountData.firstRequestTime⟩
  let updated : CountData :=
    if now - incremented.firstRequestTime > 5 * 60 * 1000 then ⟨1, now⟩
    else incremented
  (updated.count > 10, cmapSet m ip updated)

/-- Runs `trackRequest` once per timestamp in the list, collecting the
fired-notification flags in order. -/
def trackSeq (m : CountMap) (ip : String) : List Int → List Bool × CountMap
  | [] => ([], m)
  | t :: ts =>
    let step := trackRequest m ip t
    let rest := trackSeq step.2 ip ts
    (step.1 :: rest.1, rest.2)

/-- `logToSupabase(data)`: the insert is awaited inside `try`/`catch`; a
returned error object is only logged, a thrown exception is caught and
logged — the function always returns normally.  The argument is the
outcome of the underlying insert (`Except.error ()` = the insert threw;
`some msg` = the insert resolved with an error object). -/
def logToSupabase (insertOutcome : Except Unit (Option String)) :
    Except Unit Unit :=
  match insertOutcome with
  | .error _ => .ok ()
  | .ok _ => .ok ()

def stopAbusingBody : String := "Stop Abusing the Api"

def deniedOriginHeaders : Headers :=
  [("content-type", "text/plain"),
   ("access-control-allow-origin", "*"),
   ("access-control-allow-methods", "*"),
   ("access-control-allow-headers", "*")]

/-- The unauthorized-origin denial path of the part_002 handler: it awaits
`logToSupabase` and then returns the fixed 403 response. -/
def deniedOriginFlow (insertOutcome : Except Unit (Option String)) :
    Except Unit Response :=
  match logToSupabase insertOutcome with
  | .error e => .error e
  | .ok _ => .ok ⟨403, deniedOriginHeaders, some stopAbusingBody⟩

end Part002

/-! ## The console-logging cerebras handler (third handler of
`src/openai-proxy/src/pages/api/cerebras/[...path].ts`, lines 429–582) -/

namespace Cerebras3

/-- The relayed response headers (lines 502–509): clone of the upstream
headers, the four permissive CORS headers set, then the hop-by-hop
deletions. -/
def relayHeaders (upstreamHeaders : Headers) : Headers :=
  hDelete (hDelete (hSet (hSet (hSet (hSet upstreamHeaders
    "access-control-allow-origin" "*") "access-control-allow-methods" "*")
    "access-control-allow-headers" "*") "access-control-allow-credentials"
    "true") "transfer-encoding") "connection"

/-- The headers of the handler's own 500 error response (lines 572–580):
`Content-Type` only — none of the CORS headers. -/
def errorHeaders : Headers := [("content-type", "application/json")]

/-- This handler's request path: cooldown; `await req.text()` (line 492)
consumes the inbound body, so the subsequent `fetch` with `body: req.body`
(line 499) throws on any body-bearing request — a thrown `fetch`, from
that or from the network, is the oracle's `Except.error` case, which lands
in the `catch`.  On a resolved `fetch`, `await response.text()` (line 516)
locks and disturbs a non-null upstream body; then comes the unguarded
`await supabase.from('api_logs').insert(...)` (line 520), and only then
the relay: the streaming branch's `response.body?.pipeThrough` (line 543)
and the non-streaming `new Response(response.body, ...)` (line 556) both
throw a `TypeError` on the locked stream, so every response with a
non-null body ends in the `catch` path's 500; only a null-body
non-streaming response still relays (`new Response(null)` is fine), and a
null-body streaming response hits the explicit `throw` of line 545.  The
`catch` block awaits its own unguarded insert (line 567) before returning
its 500.  `sinkThrows` says whether the audit insert throws;
`Except.error ()` as the overall result models that exception escaping the
handler (the insert at line 520 throws, the catch's insert at line 567
throws again), so the client never receives a handler-built response.
The cooldown state is threaded exactly as in `Mistral.waitForCooldown`,
whose code this handler repeats verbatim. -/
def handler (rate : RateMap) (clientIP : String) (now exitNow : Int)
    (fetchRes : Except Unit Upstream) (sinkThrows : Bool) :
    Except Unit Response × RateMap :=
  let rate' := (Mistral.waitForCooldown rate clientIP now exitNow).2
  match fetchRes with
  | .error _ =>
    if sinkThrows then (.error (), rate')
    else (.ok ⟨500, errorHeaders, some internalServerErrorBody⟩, rate')
  | .ok response =>
    if sinkThrows then
      (.error (), rate')
    else
      let isStreaming := match hGet response.headers "content-type" with
        | some ct => jsIncludes ct "stream"
        | none => false
      if isStreaming then
        match response.body with
        | none => (.ok ⟨500, errorHeaders, some internalServerErrorBody⟩, rate')
        | some _ =>
          (.ok ⟨500, errorHeaders, some internalServerErrorBody⟩, rate')
      else
        match response.body with
        | none =>
          (.ok ⟨response.status, relayHeaders response.headers, none⟩, rate')
        | some _ =>
          (.ok ⟨500, errorHeaders, some internalServerErrorBody⟩, rate')

end Cerebras3

/-! ## The first cerebras handler (`src/openai-proxy/src/pages/api/cerebras/[...path].ts`,
lines 33–148: `try`/`catch`/`finally` with a guarded supabase insert) -/

namespace CerebrasA

/-- The relayed response headers (lines 71–77): clone of the upstream
headers, the four permissive CORS headers set, then the hop-by-hop
deletions — applied before either relay branch. -/
def relayHeaders (upstreamHeaders : Headers) : Headers :=
  hDelete (hDelete (hSet (hSet (hSet (hSet upstreamHeaders
    "access-control-allow-origin" "*") "access-control-allow-methods" "*")
    "access-control-allow-headers" "*") "access-control-allow-credentials"
    "true") "transfer-encoding") "connection"

/-- The headers the `catch` block assigns for the handler's own 500
response (lines 124–125): `Content-Type` only — none of the CORS
headers. -/
def errorHeaders : Headers := [("content-type", "application/json")]

/-- The first cerebras handler: cooldown; `requestBody = await req.text()`
(line 54) is dispatched as a string (line 68), so `fetch` works for any
request; on a resolved `fetch` the streaming branch relays `response.body`
directly (lines 82–98, throwing only when it is null) and the
non-streaming branch relays the string `await response.text()`
(lines 100–114) — no body is consumed twice, so the success relay is
reachable.  The `catch` (lines 117–125) assigns the 500 JSON and
`Content-Type`-only headers, the `finally` wraps its supabase insert in
its own `try`/`catch` (lines 126–143) so `sinkFails` never alters control
flow, and line 145 returns the catch-assigned 500. -/
def handler (rate : RateMap) (clientIP : String) (now exitNow : Int)
    (fetchRes : Except Unit Upstream) (sinkFails : Bool) :
    Except Unit Response × RateMap :=
  let _ := sinkFails
  let rate' := (Mistral.waitForCooldown rate clientIP now exitNow).2
  match fetchRes with
  | .error _ =>
    (.ok ⟨500, errorHeaders, some internalServerErrorBody⟩, rate')
  | .ok response =>
    let isStreaming := match hGet response.headers "content-type" with
      | some ct => jsIncludes ct "stream"
      | none => false
    if isStreaming then
      match response.body with
      | none => (.ok ⟨500, errorHeaders, some internalServerErrorBody⟩, rate')
      | some b =>
        (.ok ⟨response.status, relayHeaders response.headers, some b⟩, rate')
    else
      (.ok ⟨response.status, relayHeaders response.headers,
        some (response.body.getD "")⟩, rate')

end CerebrasA

/-! ## Helper lemmas -/

theorem hGet_hSet_self (h : Headers) (k v : String) :
    hGet (hSet h k v) k = some v := by
  simp [hGet, hSet, List.find?]

theorem hGet_filter_ne (h : Headers) (k k' : String) (hne : k' ≠ k) :
    hGet (h.filter (fun p => !(p.1 == k))) k' = hGet h k' := by
  induction h with
  | nil => rfl
  | cons p t ih =>
    rw [List.filter_cons]
    by_cases hk : p.1 = k
    · have h1 : (!(p.1 == k)) = false := by simp [hk]
      have h2 : (p.1 == k') = false := by
        simp only [beq_eq_false_iff_ne, ne_eq]
        intro e; exact hne (e ▸ hk)
      rw [h1, if_neg (by simp)]
      unfold hGet
      rw [List.find?_cons_of_neg t (by simp [h2])]
      exact ih
    · have h1 : (!(p.1 == k)) = true := by simp [hk]
      rw [h1, if_pos rfl]
      by_cases hk' : p.1 = k'
      · unfold hGet
        rw [List.find?_cons_of_pos _ (by simp [hk']),
          List.find?_cons_of_pos _ (by simp [hk'])]
      · unfold hGet
        rw [List.find?_cons_of_neg _ (by simp [hk']),
          List.find?_cons_of_neg _ (by simp [hk'])]
        exact ih

theorem hGet_hSet_ne (h : Headers) (k v k' : String) (hne : k' ≠ k) :
    hGet (hSet h k v) k' = hGet h k' := by
  unfold hGet hSet
  rw [List.find?_cons_of_neg _ (by simp; exact fun e => hne e.symm)]
  exact hGet_filter_ne h k k' hne

theorem hGet_hDelete_self (h : Headers) (k : String) :
    hGet (hDelete h k) k = none := by
  simp only [hGet, hDelete, Option.map_eq_none', List.find?_eq_none,
    List.mem_filter, Bool.not_eq_true']
  intro p hp
  simp [hp.2]

theorem hGet_hDelete_ne (h : Headers) (k k' : String) (hne : k' ≠ k) :
    hGet (hDelete h k) k' = hGet h k' :=
  hGet_filter_ne h k k' hne

/-! ### Lemmas about the JS string helpers -/

theorem isPrefixOf_append_self (l r : List Char) :
    l.isPrefixOf (l ++ r) = true :=
  List.isPrefixOf_iff_prefix.mpr (List.prefix_append l r)

theorem firstOcc_append_self (d : Char) (ds l : List Char) :
    firstOcc (d :: ds) ((d :: ds) ++ l) = some l := by
  rw [List.cons_append, firstOcc,
    if_pos (by simp [isPrefixOf_append_self (d :: ds) l])]
  rw [← List.cons_append, List.drop_left]

theorem firstOcc_of_not_includes (d : Char) (ds l : List Char)
    (h : listIncludesL (d :: ds) l = false) :
    firstOcc (d :: ds) l = none := by
  induction l with
  | nil => rw [firstOcc]; simp [List.isEmpty]
  | cons c cs ih =>
    rw [listIncludesL, Bool.or_eq_false_iff] at h
    rw [firstOcc, if_neg (by simp [h.1]), ih h.2]

theorem takeUntilOcc_of_not_includes (d : Char) (ds l : List Char)
    (h : listIncludesL (d :: ds) l = false) :
    takeUntilOcc (d :: ds) l = l := by
  induction l with
  | nil => rfl
  | cons c cs ih =>
    rw [listIncludesL, Bool.or_eq_false_iff] at h
    rw [takeUntilOcc, if_neg (by simp [h.1]), ih h.2]

theorem listReplaceFirst_append_self (d : Char) (ds rep l : List Char) :
    listReplaceFirst d ds rep ((d :: ds) ++ l) = rep ++ l := by
  rw [List.cons_append, listReplaceFirst,
    if_pos (by simp [isPrefixOf_append_self (d :: ds) l])]
  rw [List.drop_left]

theorem mapGet_mapSet_self (m : RateMap) (k : String) (v : Int) :
    mapGet (mapSet m k v) k = some v := by
  simp [mapGet, mapSet, List.find?]

theorem cmapGet_cmapSet_self (m : Part002.CountMap) (k : String)
    (v : Part002.CountData) : Part002.cmapGet (Part002.cmapSet m k v) k = some v := by
  simp [Part002.cmapGet, Part002.cmapSet, List.find?]

/-- The fired-notification flag of one `trackRequest` step, written out. -/
theorem trackRequest_fst (m : Part002.CountMap) (ip : String) (now : Int) :
    (Part002.trackRequest m ip now).1 =
      decide ((if now - ((Part002.cmapGet m ip).getD ⟨0, now⟩).firstRequestTime >
          5 * 60 * 1000
        then (⟨1, now⟩ : Part002.CountData)
        else ⟨((Part002.cmapGet m ip).getD ⟨0, now⟩).count + 1,
          ((Part002.cmapGet m ip).getD ⟨0, now⟩).firstRequestTime⟩).count > 10) :=
  rfl

/-- The stored per-key record of one `trackRequest` step, written out. -/
theorem trackRequest_snd (m : Part002.CountMap) (ip : String) (now : Int) :
    (Part002.trackRequest m ip now).2 =
      Part002.cmapSet m ip
        (if now - ((Part002.cmapGet m ip).getD ⟨0, now⟩).firstRequestTime >
            5 * 60 * 1000
          then (⟨1, now⟩ : Part002.CountData)
          else ⟨((Part002.cmapGet m ip).getD ⟨0, now⟩).count + 1,
            ((Part002.cmapGet m ip).getD ⟨0, now⟩).firstRequestTime⟩) :=
  rfl

/-! ## Claim C1 — the cooldown gate -/

/-- C1: `waitForCooldown` looks up the key's last-seen timestamp with
default 0 (epoch start), computes `elapsed = now - lastSeen`, suspends for
exactly `D - elapsed` milliseconds when `elapsed < D` and not at all
otherwise, always stores the current time (the `Date.now()` read taken on
exit) as the key's new last-seen timestamp, and in particular a first
request for a key (no map entry, `now ≥ D`) never waits. -/
theorem C1_cooldown_gate (m : RateMap) (ip : String) (now exitNow : Int) :
    (mapGet m ip = none → (mapGet m ip).getD 0 = 0)
    ∧ (now - (mapGet m ip).getD 0 < Mistral.RATE_LIMIT_DURATION →
        (Mistral.waitForCooldown m ip now exitNow).1 =
          Mistral.RATE_LIMIT_DURATION - (now - (mapGet m ip).getD 0))
    ∧ (Mistral.RATE_LIMIT_DURATION ≤ now - (mapGet m ip).getD 0 →
        (Mistral.waitForCooldown m ip now exitNow).1 = 0)
    ∧ mapGet (Mistral.waitForCooldown m ip now exitNow).2 ip = some exitNow
    ∧ (mapGet m ip = none → Mistral.RATE_LIMIT_DURATION ≤ now →
        (Mistral.waitForCooldown m ip now exitNow).1 = 0) := by
  refine ⟨fun h => by rw [h]; rfl, fun h => ?_, fun h => ?_, ?_, fun h0 hD => ?_⟩
  · simp only [Mistral.waitForCooldown]
    rw [if_pos h]
  · have hn : ¬(now - (mapGet m ip).getD 0 < Mistral.RATE_LIMIT_DURATION) := by
      omega
    simp only [Mistral.waitForCooldown]
    rw [if_neg hn]
  · exact mapGet_mapSet_self m ip exitNow
  · have hn : ¬(now - (mapGet m ip).getD 0 < Mistral.RATE_LIMIT_DURATION) := by
      rw [h0]
      simp only [Option.getD_none]
      omega
    simp only [Mistral.waitForCooldown]
    rw [if_neg hn]

/-- Witness for C1 at a concrete first request: key absent, `now = 5000`,
no wait, and the exit-time stamp `5003` is stored. -/
theorem C1_cooldown_gate_witness :
    (Mistral.waitForCooldown [] "1.2.3.4" 5000 5003).1 = 0
    ∧ mapGet (Mistral.waitForCooldown [] "1.2.3.4" 5000 5003).2 "1.2.3.4" =
      some 5003 :=
  ⟨(C1_cooldown_gate [] "1.2.3.4" 5000 5003).2.2.2.2 rfl (by decide),
   (C1_cooldown_gate [] "1.2.3.4" 5000 5003).2.2.2.1⟩

/-! ## Claim C2 — order of the ban and origin checks -/

/-- C2 counterexample: the banned IP `194.191.253.202` with no Origin and
no Referer is denied by the part_001 handler with the origin decision
(`Unauthorized Origin`), not the banned-IP decision — the origin check runs
first, so a banned IP is NOT denied with the banned-IP decision regardless
of its Origin/Referer headers. -/
theorem C2_counterexample :
    Part001.isBannedIP "194.191.253.202" = true
    ∧ (Part001.gate "POST" [] "194.191.253.202" none none 0).1 =
        some ⟨403, "Unauthorized Origin"⟩
    ∧ some (⟨403, "Unauthorized Origin"⟩ : Part001.GateDenial) ≠
        some (⟨403, "Your IP is banned from accessing this service"⟩ :
          Part001.GateDenial) := by
  decide

/-- C2 (amended): the access-control evaluation performs the
origin/referrer allow-list check BEFORE the banned-IP check: a request
whose Origin/Referer fails the allow-list is denied with the origin
decision even when its IP is banned, and a banned IP receives the
banned-IP decision exactly when its Origin/Referer passes the
allow-list. -/
theorem C2_amended (method : String) (m : RateMap) (ip : String)
    (origin referer : Option String) (now : Int) :
    (Part001.originCheckFails origin referer = true →
      (Part001.gate method m ip origin referer now).1 =
        some ⟨403, "Unauthorized Origin"⟩)
    ∧ (Part001.originCheckFails origin referer = false →
        Part001.isBannedIP ip = true →
      (Part001.gate method m ip origin referer now).1 =
        some ⟨403, "Your IP is banned from accessing this service"⟩) := by
  constructor
  · intro h
    simp only [Part001.gate, if_pos h]
  · intro h hb
    simp only [Part001.gate, h, Bool.false_eq_true, if_false, if_pos hb]

/-- Witness for C2 (amended): the banned IP with an allow-listed origin
does receive the banned-IP decision. -/
theorem C2_amended_witness :
    (Part001.gate "POST" [] "194.191.253.202"
      (some "https://chat.gaurish.xyz") none 0).1 =
      some ⟨403, "Your IP is banned from accessing this service"⟩ :=
  (C2_amended "POST" [] "194.191.253.202"
    (some "https://chat.gaurish.xyz") none 0).2 (by decide) (by decide)

/-! ## Claim C5 — OPTIONS preflight short-circuit -/

/-- C5 counterexample: the part_001 handler has no `OPTIONS` branch, so an
`OPTIONS` request with `Origin: https://x.example` runs the ordinary
admission gate and is denied `403 Unauthorized Origin` — not answered
`204` with CORS headers. -/
theorem C5_counterexample :
    (Part001.gate "OPTIONS" [] "1.1.1.1" (some "https://x.example") none 0).1 =
      some ⟨403, "Unauthorized Origin"⟩
    ∧ (403 : Nat) ≠ 204 := by
  decide

/-- C5 (amended): the mistral handler short-circuits `OPTIONS` requests to
a `204` whose headers are exactly its CORS header set, with a null body,
before the cooldown runs (the rate map is returned unchanged) and before
any upstream dispatch (`fwd = none`); the part_001/part_002 handlers have
no such branch. -/
theorem C5_amended (env : Option String)
    (fetchFn : Mistral.ForwardSpec → Except Unit Upstream) (rate : RateMap)
    (now exitNow : Int) (req : Mistral.Request)
    (h : req.method = "OPTIONS") :
    Mistral.handler env fetchFn rate now exitNow req =
      ⟨⟨204, Mistral.getCorsHeaders (hGet req.headers "origin"), none⟩,
        none, rate⟩ := by
  simp only [Mistral.handler, h, beq_self_eq_true, if_true]

/-- Witness for C5 (amended) at a concrete preflight request. -/
theorem C5_amended_witness :
    Mistral.handler none (fun _ => .error ()) [] 0 0
      ⟨"OPTIONS", "/api/mistral/chat", "", [("origin", "https://x.example")],
        ""⟩ =
      ⟨⟨204, Mistral.getCorsHeaders (some "https://x.example"), none⟩,
        none, []⟩ :=
  C5_amended none (fun _ => .error ()) [] 0 0
    ⟨"OPTIONS", "/api/mistral/chat", "",
      [("origin", "https://x.example")], ""⟩ rfl

/-! ## Claim C6 — abuse-counter notification debounce -/

/-- C6 counterexample: twelve requests from one key, all at time 0 (well
inside a single five-minute monitoring period), fire the notification on
the 11th AND the 12th request — twice in one monitoring period, because
the code keeps no last-notification timestamp. -/
theorem C6_counterexample :
    (Part002.trackSeq [] "1.2.3.4" (List.replicate 12 0)).1 =
      [false, false, false, false, false, false, false, false, false, false,
        true, true]
    ∧ ((Part002.trackSeq [] "1.2.3.4" (List.replicate 12 0)).1.count true) = 2 := by
  decide

/-- C6 (amended): the notification fires on EVERY request whose per-window
count exceeds the threshold 10, with no debounce: whenever a request from
a key fires, an immediately following request from the same key (same
timestamp, hence the same monitoring period) fires again. -/
theorem C6_amended (m : Part002.CountMap) (ip : String) (now : Int)
    (h : (Part002.trackRequest m ip now).1 = true) :
    (Part002.trackRequest (Part002.trackRequest m ip now).2 ip now).1 = true := by
  rw [trackRequest_fst] at h
  rw [trackRequest_fst, trackRequest_snd, cmapGet_cmapSet_self, Option.getD_some]
  set d0 := (Part002.cmapGet m ip).getD ⟨0, now⟩ with hd0
  by_cases hw : now - d0.firstRequestTime > 5 * 60 * 1000
  · rw [if_pos hw] at h
    simp only [decide_eq_true_eq] at h
    exact absurd h (by omega)
  · rw [if_neg hw] at h
    simp only [decide_eq_true_eq] at h
    rw [if_neg hw, if_neg hw]
    simp only [decide_eq_true_eq]
    omega

/-- Witness for C6 (amended): with a stored count of 10 in the current
window, two back-to-back requests at time 0 both fire. -/
theorem C6_amended_witness :
    (Part002.trackRequest
      (Part002.trackRequest [("1.2.3.4", ⟨10, 0⟩)] "1.2.3.4" 0).2
      "1.2.3.4" 0).1 = true :=
  C6_amended [("1.2.3.4", ⟨10, 0⟩)] "1.2.3.4" 0 (by decide)

/-! ## Claim C8 — audit-sink failures and the client response -/

/-- C8 counterexample: in the console-logging cerebras handler the audit
insert in the `catch` block (the claim's cited lines) is awaited with no
guard, so for the identical fetch failure the client outcome differs: a
healthy sink yields the handler's 500 JSON response, a throwing sink lets
the exception escape the handler and the client receives no handler-built
response at all — a sink failure is not swallowed and does change what
the client receives. -/
theorem C8_counterexample :
    (Cerebras3.handler [] "1.2.3.4" 5000 5000 (.error ()) false).1 =
      .ok ⟨500, Cerebras3.errorHeaders, some internalServerErrorBody⟩
    ∧ (Cerebras3.handler [] "1.2.3.4" 5000 5000 (.error ()) true).1 =
      .error ()
    ∧ (Except.error () : Except Unit Response) ≠
      .ok ⟨500, Cerebras3.errorHeaders, some internalServerErrorBody⟩ :=
  ⟨rfl, rfl, by simp⟩

/-- C8 (amended): handlers that route audit writes through
`logToSupabase` do swallow sink failures — `logToSupabase` returns
normally whether the insert resolves with an error object or throws, and
(for instance) the part_002 unauthorized-origin path returns the identical
403 response for every sink outcome; the console-logging cerebras
handler, by contrast, awaits its inserts unguarded, so a thrown sink
exception there escapes the handler and the client receives no
handler-built response instead of the 500 a healthy-sink run returns
(see the counterexample). -/
theorem C8_amended (o : Except Unit (Option String)) :
    Part002.logToSupabase o = .ok ()
    ∧ Part002.deniedOriginFlow o =
      .ok ⟨403, Part002.deniedOriginHeaders, some Part002.stopAbusingBody⟩ := by
  cases o <;> exact ⟨rfl, rfl⟩

/-! ## Lemmas about path stripping and key resolution -/

theorem jsReplaceFirst_strip (rest : String) :
    jsReplaceFirst ("/api/proxy" ++ rest) "/api/proxy" "" = rest := by
  have h1 : jsReplaceFirst ("/api/proxy" ++ rest) "/api/proxy" "" =
      ⟨listReplaceFirst '/' "api/proxy".data "".data
        ("/api/proxy" ++ rest).data⟩ := rfl
  have h2 : ("/api/proxy" ++ rest).data =
      ('/' :: "api/proxy".data) ++ rest.data := by
    rw [String.data_append]
  rw [h1, h2, listReplaceFirst_append_self]
  rfl

theorem jsSplitGet1_strip (rest : String)
    (h : jsIncludes rest "/api/mistral/" = false) :
    jsSplitGet1 ("/api/mistral/" ++ rest) "/api/mistral/" = some rest := by
  have h1 : jsSplitGet1 ("/api/mistral/" ++ rest) "/api/mistral/" =
      (firstOcc ('/' :: "api/mistral/".data)
        ("/api/mistral/" ++ rest).data).map
          (fun r => (⟨takeUntilOcc ('/' :: "api/mistral/".data) r⟩ : String)) :=
    rfl
  have h2 : ("/api/mistral/" ++ rest).data =
      ('/' :: "api/mistral/".data) ++ rest.data := by
    rw [String.data_append]
  rw [h1, h2, firstOcc_append_self]
  show some (⟨takeUntilOcc ('/' :: "api/mistral/".data) rest.data⟩ : String) =
    some rest
  rw [takeUntilOcc_of_not_includes _ _ _
    (h : listIncludesL ('/' :: "api/mistral/".data) rest.data = false)]

theorem jsSplitGet1_bearer_none (a : String)
    (h : jsIncludes a "Bearer " = false) :
    jsSplitGet1 a "Bearer " = none := by
  have h1 : jsSplitGet1 a "Bearer " =
      (firstOcc ('B' :: "earer ".data) a.data).map
        (fun r => (⟨takeUntilOcc ('B' :: "earer ".data) r⟩ : String)) := rfl
  rw [h1, firstOcc_of_not_includes _ _ _
    (h : listIncludesL ('B' :: "earer ".data) a.data = false)]
  rfl

/-- An `Authorization` value with no `Bearer ` substring is ignored: the
resolved key falls back to the configured default. -/
theorem resolveApiKey_no_bearer (a : String) (env : Option String)
    (h : jsIncludes a "Bearer " = false) :
    Mistral.resolveApiKey (some a) env = env := by
  show jsOrOpt (jsSplitGet1 a "Bearer ") env = env
  rw [jsSplitGet1_bearer_none a h]
  rfl

/-- An absent `Authorization` header falls back to the configured
default. -/
theorem resolveApiKey_no_header (env : Option String) :
    Mistral.resolveApiKey none env = env := rfl

/-! ## Lemmas about the mistral handler's header sets -/

theorem upstreamReqHeaders_auth (h : Headers) (key : String) :
    hGet (Mistral.upstreamReqHeaders h key) "authorization" =
      some ("Bearer " ++ key) := by
  unfold Mistral.upstreamReqHeaders
  rw [hGet_hDelete_ne _ _ _ (by decide), hGet_hDelete_ne _ _ _ (by decide),
    hGet_hSet_ne _ _ _ _ (by decide), hGet_hSet_ne _ _ _ _ (by decide),
    hGet_hSet_self]

theorem upstreamReqHeaders_conn (h : Headers) (key : String) :
    hGet (Mistral.upstreamReqHeaders h key) "connection" = none := by
  unfold Mistral.upstreamReqHeaders
  rw [hGet_hDelete_ne _ _ _ (by decide)]
  exact hGet_hDelete_self _ _

theorem upstreamReqHeaders_te (h : Headers) (key : String) :
    hGet (Mistral.upstreamReqHeaders h key) "transfer-encoding" = none :=
  hGet_hDelete_self _ _

theorem relayHeaders_conn (u c : Headers) :
    hGet (Mistral.relayHeaders u c) "connection" = none :=
  hGet_hDelete_self _ _

theorem relayHeaders_te (u c : Headers) :
    hGet (Mistral.relayHeaders u c) "transfer-encoding" = none := by
  unfold Mistral.relayHeaders
  rw [hGet_hDelete_ne _ _ _ (by decide)]
  exact hGet_hDelete_self _ _

theorem corsHeaders_conn (o : Option String) :
    hGet (Mistral.getCorsHeaders o) "connection" = none := by
  simp only [Mistral.getCorsHeaders]
  split
  · rw [hGet_hSet_ne _ _ _ _ (by decide)]
    decide
  · rw [hGet_hSet_ne _ _ _ _ (by decide)]
    decide

theorem corsHeaders_te (o : Option String) :
    hGet (Mistral.getCorsHeaders o) "transfer-encoding" = none := by
  simp only [Mistral.getCorsHeaders]
  split
  · rw [hGet_hSet_ne _ _ _ _ (by decide)]
    decide
  · rw [hGet_hSet_ne _ _ _ _ (by decide)]
    decide

theorem errorHeaders_conn (o : Option String) :
    hGet (hSet (Mistral.getCorsHeaders o) "content-type" "application/json")
      "connection" = none := by
  rw [hGet_hSet_ne _ _ _ _ (by decide)]
  exact corsHeaders_conn o

theorem errorHeaders_te (o : Option String) :
    hGet (hSet (Mistral.getCorsHeaders o) "content-type" "application/json")
      "transfer-encoding" = none := by
  rw [hGet_hSet_ne _ _ _ _ (by decide)]
  exact corsHeaders_te o

/-! ## Claim C3 — target URL construction and the query string -/

/-- C3 counterexample: through the mistral handler, a request for
`/api/mistral/chat?foo=bar` dispatches to
`https://api.mistral.ai/v1/chat` — the original query string `?foo=bar`
does not appear anywhere in the target URL, because the handler builds it
from `url.pathname` only. -/
theorem C3_counterexample :
    (Mistral.handler (some "defaultKey") (fun _ => .ok ⟨200, [], some "ok"⟩)
      [] 5000 5000 ⟨"POST", "/api/mistral/chat", "?foo=bar",
        [("authorization", "Bearer clientKey")], "body"⟩).fwd.map
          (fun f => f.targetUrl) = some "https://api.mistral.ai/v1/chat"
    ∧ jsIncludes "https://api.mistral.ai/v1/chat" "?foo=bar" = false := by
  decide

/-- C3 (amended): the `/api/proxy` handler does build
`targetURL = upstreamBase ++ pathRemainder ++ originalQueryString`; the
mistral handler builds `upstreamBase ++ "/" ++ pathRemainder` from the
pathname alone, so its dispatched URL drops the query string. -/
theorem C3_amended (base rest search : String)
    (hrest : jsIncludes rest "/api/mistral/" = false) :
    Proxy.proxyTargetUrl base ("/api/proxy" ++ rest) search =
      base ++ rest ++ search
    ∧ Mistral.mistralTargetUrl ("/api/mistral/" ++ rest) =
      Mistral.MISTRAL_BASE_URL ++ "/" ++ rest := by
  constructor
  · unfold Proxy.proxyTargetUrl
    rw [jsReplaceFirst_strip]
  · unfold Mistral.mistralTargetUrl
    rw [jsSplitGet1_strip rest hrest]
    rfl

/-- Witness for C3 (amended) at concrete paths. -/
theorem C3_amended_witness :
    Proxy.proxyTargetUrl "https://api.example.com" "/api/proxy/v1/chat"
      "?x=1" = "https://api.example.com/v1/chat?x=1"
    ∧ Mistral.mistralTargetUrl "/api/mistral/chat/completions" =
      "https://api.mistral.ai/v1/chat/completions" := by
  have h := C3_amended "https://api.example.com" "/v1/chat" "?x=1" (by decide)
  have h2 := C3_amended "https://api.example.com" "chat/completions" ""
    (by decide)
  exact ⟨h.1, h2.2⟩

/-! ## Claim C4 — hop-by-hop header stripping -/

/-- C4 counterexample: the `/api/proxy` handler builds its upstream
headers from a clone of the inbound headers with only `Authorization` and
`Host` overwritten — inbound `Connection` and `Transfer-Encoding` headers
survive and are forwarded upstream. -/
theorem C4_counterexample :
    hGet (Proxy.proxyUpstreamHeaders
      [("connection", "keep-alive"), ("transfer-encoding", "chunked")]
      (some "k") "api.example.com") "connection" = some "keep-alive"
    ∧ hGet (Proxy.proxyUpstreamHeaders
      [("connection", "keep-alive"), ("transfer-encoding", "chunked")]
      (some "k") "api.example.com") "transfer-encoding" = some "chunked" := by
  decide

/-- C4 (amended): the mistral handler (like the cerebras and part_001/002
handlers, which share the same delete calls) strips `Connection` and
`Transfer-Encoding` everywhere: they are absent from the header set of
every dispatched upstream request and from the headers of every response
it returns; the `/api/proxy` handler performs no such stripping (see the
counterexample). -/
theorem C4_amended (env : Option String)
    (fetchFn : Mistral.ForwardSpec → Except Unit Upstream) (rate : RateMap)
    (now exitNow : Int) (req : Mistral.Request) :
    (∀ f, (Mistral.handler env fetchFn rate now exitNow req).fwd = some f →
      hGet f.headers "connection" = none ∧
      hGet f.headers "transfer-encoding" = none)
    ∧ hGet (Mistral.handler env fetchFn rate now exitNow req).resp.headers
        "connection" = none
    ∧ hGet (Mistral.handler env fetchFn rate now exitNow req).resp.headers
        "transfer-encoding" = none := by
  simp only [Mistral.handler]
  by_cases hm : (req.method == "OPTIONS") = true
  · simp only [hm, if_true]
    exact ⟨fun f hf => Option.noConfusion hf, corsHeaders_conn _, corsHeaders_te _⟩
  · have hm' : (req.method == "OPTIONS") = false := by
      simpa using hm
    simp only [hm', Bool.false_eq_true, if_false]
    by_cases hk : jsFalsy (Mistral.resolveApiKey
        (hGet req.headers "authorization") env) = true
    · simp only [hk, if_true]
      exact ⟨fun f hf => Option.noConfusion hf, errorHeaders_conn _, errorHeaders_te _⟩
    · have hk' : jsFalsy (Mistral.resolveApiKey
          (hGet req.headers "authorization") env) = false := by
        simpa using hk
      simp only [hk', Bool.false_eq_true, if_false]
      split
      · refine ⟨fun f hf => ?_, errorHeaders_conn _, errorHeaders_te _⟩
        cases hf
        exact ⟨upstreamReqHeaders_conn _ _, upstreamReqHeaders_te _ _⟩
      · split
        · split
          · refine ⟨fun f hf => ?_, errorHeaders_conn _, errorHeaders_te _⟩
            cases hf
            exact ⟨upstreamReqHeaders_conn _ _, upstreamReqHeaders_te _ _⟩
          · refine ⟨fun f hf => ?_, relayHeaders_conn _ _, relayHeaders_te _ _⟩
            cases hf
            exact ⟨upstreamReqHeaders_conn _ _, upstreamReqHeaders_te _ _⟩
        · refine ⟨fun f hf => ?_, relayHeaders_conn _ _, relayHeaders_te _ _⟩
          cases hf
          exact ⟨upstreamReqHeaders_conn _ _, upstreamReqHeaders_te _ _⟩

/-- Witness for C4 (amended) at a concrete request carrying hop-by-hop
headers. -/
theorem C4_amended_witness :
    hGet (Mistral.handler (some "k") (fun _ => .ok ⟨200,
      [("connection", "keep-alive")], some "ok"⟩) [] 5000 5000
      ⟨"POST", "/api/mistral/chat", "",
        [("connection", "keep-alive"), ("transfer-encoding", "chunked")],
        "b"⟩).resp.headers "connection" = none :=
  (C4_amended (some "k") (fun _ => .ok ⟨200,
    [("connection", "keep-alive")], some "ok"⟩) [] 5000 5000
    ⟨"POST", "/api/mistral/chat", "",
      [("connection", "keep-alive"), ("transfer-encoding", "chunked")],
      "b"⟩).2.1

/-! ## Claim C7 — missing resolvable secret -/

/-- The 401 branch of the mistral handler: a non-preflight request whose
resolved key is JS-falsy is answered `401` with no dispatch (shared by
the claims about missing secrets and the authorization fallback). -/
theorem handler_401_branch (env : Option String)
    (fetchFn : Mistral.ForwardSpec → Except Unit Upstream) (rate : RateMap)
    (now exitNow : Int) (req : Mistral.Request)
    (hm : req.method ≠ "OPTIONS")
    (hk : jsFalsy (Mistral.resolveApiKey
      (hGet req.headers "authorization") env) = true) :
    (Mistral.handler env fetchFn rate now exitNow req).resp.status = 401
    ∧ (Mistral.handler env fetchFn rate now exitNow req).resp.body =
        some Mistral.apiKeyRequiredBody
    ∧ (Mistral.handler env fetchFn rate now exitNow req).fwd = none := by
  have hm' : (req.method == "OPTIONS") = false := beq_eq_false_iff_ne.mpr hm
  refine ⟨?_, ?_, ?_⟩ <;>
    simp only [Mistral.handler, hm', Bool.false_eq_true, if_false, hk, if_true]

/-- C7: when no secret can be resolved — the inbound `Authorization`
header yields no bearer token and the configured default is absent or
empty, i.e. the resolved key is JS-falsy — a non-preflight request is
answered `401` with body `{"error":"API key is required"}` and nothing is
dispatched upstream. -/
theorem C7_missing_secret (env : Option String)
    (fetchFn : Mistral.ForwardSpec → Except Unit Upstream) (rate : RateMap)
    (now exitNow : Int) (req : Mistral.Request)
    (hm : req.method ≠ "OPTIONS")
    (hk : jsFalsy (Mistral.resolveApiKey
      (hGet req.headers "authorization") env) = true) :
    (Mistral.handler env fetchFn rate now exitNow req).resp.status = 401
    ∧ (Mistral.handler env fetchFn rate now exitNow req).resp.body =
        some Mistral.apiKeyRequiredBody
    ∧ (Mistral.handler env fetchFn rate now exitNow req).fwd = none :=
  handler_401_branch env fetchFn rate now exitNow req hm hk

/-- Witness for C7: a `POST` with no `Authorization` header and no
configured default secret. -/
theorem C7_missing_secret_witness :
    (Mistral.handler none (fun _ => .ok ⟨200, [], some "ok"⟩) [] 5000 5000
      ⟨"POST", "/api/mistral/chat", "", [], ""⟩).resp.status = 401
    ∧ (Mistral.handler none (fun _ => .ok ⟨200, [], some "ok"⟩) [] 5000 5000
      ⟨"POST", "/api/mistral/chat", "", [], ""⟩).resp.body =
        some Mistral.apiKeyRequiredBody :=
  ⟨(C7_missing_secret none (fun _ => .ok ⟨200, [], some "ok"⟩) [] 5000 5000
      ⟨"POST", "/api/mistral/chat", "", [], ""⟩ (by decide) (by decide)).1,
   (C7_missing_secret none (fun _ => .ok ⟨200, [], some "ok"⟩) [] 5000 5000
      ⟨"POST", "/api/mistral/chat", "", [], ""⟩ (by decide) (by decide)).2.1⟩

/-! ## Merge lemmas for the CORS `forEach`/`set` loop -/

/-- C10: in the mistral handler, an `Authorization` header whose value
contains no `Bearer ` substring (a Basic credential, a bare token) — or an
absent header — is silently ignored: the configured default secret is
resolved instead, and a non-empty default is dispatched upstream as
`Bearer <default>`; the 401 occurs exactly when, additionally, the default
is absent or empty (JS-falsy). -/
theorem C10_auth_fallback (env : Option String)
    (fetchFn : Mistral.ForwardSpec → Except Unit Upstream) (rate : RateMap)
    (now exitNow : Int) (req : Mistral.Request)
    (hm : req.method ≠ "OPTIONS")
    (ha : hGet req.headers "authorization" = none ∨
      ∃ a, hGet req.headers "authorization" = some a ∧
        jsIncludes a "Bearer " = false) :
    (∀ dflt, env = some dflt → (dflt == "") = false →
      (Mistral.handler env fetchFn rate now exitNow req).fwd =
        some ⟨req.method, Mistral.mistralTargetUrl req.urlPathname,
          Mistral.upstreamReqHeaders req.headers dflt, req.body⟩
      ∧ hGet (Mistral.upstreamReqHeaders req.headers dflt) "authorization" =
          some ("Bearer " ++ dflt))
    ∧ (jsFalsy env = true →
      (Mistral.handler env fetchFn rate now exitNow req).resp.status = 401
      ∧ (Mistral.handler env fetchFn rate now exitNow req).fwd = none) := by
  have hm' : (req.method == "OPTIONS") = false := beq_eq_false_iff_ne.mpr hm
  have hres : Mistral.resolveApiKey (hGet req.headers "authorization") env =
      env := by
    rcases ha with h | ⟨a, ha1, ha2⟩
    · rw [h]
      exact resolveApiKey_no_header env
    · rw [ha1]
      exact resolveApiKey_no_bearer a env ha2
  constructor
  · intro dflt hd hne
    have hkf : jsFalsy (Mistral.resolveApiKey
        (hGet req.headers "authorization") env) = false := by
      rw [hres, hd]
      exact hne
    have hgd : (Mistral.resolveApiKey
        (hGet req.headers "authorization") env).getD "" = dflt := by
      rw [hres, hd]
      rfl
    refine ⟨?_, upstreamReqHeaders_auth req.headers dflt⟩
    simp only [Mistral.handler, hm', Bool.false_eq_true, if_false, hkf,
      if_false, hgd]
    split
    · rfl
    · split
      · split
        · rfl
        · rfl
      · rfl
  · intro hf
    have hkf : jsFalsy (Mistral.resolveApiKey
        (hGet req.headers "authorization") env) = true := by
      rw [hres]
      exact hf
    exact ⟨(handler_401_branch env fetchFn rate now exitNow req hm hkf).1,
      (handler_401_branch env fetchFn rate now exitNow req hm hkf).2.2⟩

/-- Witness for C10: a `Basic` credential is ignored and the configured
default key is dispatched as the bearer token. -/
theorem C10_auth_fallback_witness :
    (Mistral.handler (some "sk-default") (fun _ => .ok ⟨200, [], some "ok"⟩)
      [] 5000 5000 ⟨"POST", "/api/mistral/chat", "",
        [("authorization", "Basic dXNlcg==")], "b"⟩).fwd =
      some ⟨"POST", Mistral.mistralTargetUrl "/api/mistral/chat",
        Mistral.upstreamReqHeaders
          [("authorization", "Basic dXNlcg==")] "sk-default", "b"⟩
    ∧ hGet (Mistral.upstreamReqHeaders
        [("authorization", "Basic dXNlcg==")] "sk-default") "authorization" =
      some ("Bearer " ++ "sk-default") :=
  (C10_auth_fallback (some "sk-default") (fun _ => .ok ⟨200, [], some "ok"⟩)
    [] 5000 5000 ⟨"POST", "/api/mistral/chat", "",
      [("authorization", "Basic dXNlcg==")], "b"⟩ (by decide)
    (Or.inr ⟨"Basic dXNlcg==", by decide, by decide⟩)).1 "sk-default" rfl
    (by decide)

/-- Witness for C8 (amended): even a throwing sink leaves the part_002
denial response unchanged. -/
theorem C8_amended_witness :
    Part002.deniedOriginFlow (.error ()) =
      .ok ⟨403, Part002.deniedOriginHeaders, some Part002.stopAbusingBody⟩ :=
  (C8_amended (.error ())).2

end ProxyEdith
